import Mathlib

/-!
Verification of the Longhorn instance handler (`controller/instance_handler.go`)
against its natural-language specification.

The Go code is shallowly embedded: `syncStatusWithPod` and
`ReconcileInstanceState` become pure Lean functions, with the external
Kubernetes API modelled as an explicit environment of call results
(`KubeEnv`). Status mutation becomes explicit state passing; issued side
effects (pod create / pod delete API calls) are recorded as booleans in the
result.
-/

/-- Embedding of `types.InstanceState`: the instance state enum
{stopped, starting, running, stopping, error}. -/
inductive InstanceState where
  | stopped
  | starting
  | running
  | stopping
  | error
deriving DecidableEq, Repr

/-- The string value of a `types.InstanceState` (it is a Go string type),
as interpolated by `%v` in error messages. -/
def InstanceState.text : InstanceState → String
  | .stopped => "stopped"
  | .starting => "starting"
  | .running => "running"
  | .stopping => "stopping"
  | .error => "error"

/-- Embedding of `types.InstanceSpec`: the caller-owned desired state. Only the fields the
handler reads (and `NodeID`, which it may latch) are modelled. -/
structure InstanceSpec where
  desireState : InstanceState
  nodeID : String
  engineImage : String
deriving DecidableEq, Repr

/-- Embedding of `types.InstanceStatus`: the reconciler-owned observed state. -/
structure InstanceStatus where
  currentState : InstanceState
  started : Bool
  ip : String
  currentImage : String
  nodeBootID : String
deriving DecidableEq, Repr

/-- Embedding of `v1.PodPhase`. -/
inductive PodPhase where
  | pending
  | running
  | succeeded
  | failed
  | unknown
deriving DecidableEq, Repr

/-- Embedding of one entry of `pod.Status.ContainerStatuses`; only `Ready` is read. -/
structure ContainerStatus where
  ready : Bool
deriving DecidableEq, Repr

/-- The slice of a `v1.Pod` the handler reads: name, deletion timestamp,
phase, container readiness, pod IP and assigned node name. -/
structure Pod where
  name : String
  deletionTimestamp : Option Nat
  phase : PodPhase
  containerStatuses : List ContainerStatus
  podIP : String
  nodeName : String
deriving DecidableEq, Repr

/-- Result of `h.getPod` (pod lister Get): found, IsNotFound, or another
API error. -/
inductive PodGetResult where
  | found (p : Pod)
  | notFound
  | apiError (e : String)
deriving Repr

/-- The external Kubernetes API, modelled as the results the calls of one
reconciliation cycle would return. `getBootID` maps a node name to the result
of `Nodes().Get(...)​.Status.NodeInfo.BootID` (`GetNodeBootIDForPod`).
`deletePodApiError` is the error of `Pods().Delete`, if any. -/
structure KubeEnv where
  getPodResult : PodGetResult
  createPodSpecResult : Except String Pod
  createPodResult : Pod → Except String Pod
  deletePodApiError : Option String
  getBootID : String → Except String String

/-- Embeds `syncStatusWithPod`: recompute `CurrentState`, `IP`,
`CurrentImage`, `NodeBootID` from a possibly-nil pod. Mirrors the Go branch
structure: nil pod, deletion timestamp, then phase. -/
def syncStatusWithPod (getBootID : String → Except String String)
    (pod : Option Pod) (spec : InstanceSpec) (status : InstanceStatus) :
    InstanceStatus :=
  match pod with
  | none =>
    if status.started then
      { status with currentState := .error, ip := "", currentImage := "" }
    else
      { status with currentState := .stopped, ip := "", currentImage := "" }
  | some p =>
    if p.deletionTimestamp.isSome then
      { status with currentState := .stopping, ip := "", currentImage := "" }
    else
      match p.phase with
      | .pending =>
        { status with currentState := .starting, ip := "", currentImage := "" }
      | .running =>
        -- wait until all containers passed readiness probe
        if p.containerStatuses.any (fun st => !st.ready) then
          { status with currentState := .starting, ip := "", currentImage := "" }
        else
          let status := { status with currentState := InstanceState.running }
          let status :=
            if status.ip != p.podIP then { status with ip := p.podIP } else status
          -- only set CurrentImage when first started, since later we may
          -- specify different spec.EngineImage for upgrade
          let status :=
            if status.currentImage == "" then
              { status with currentImage := spec.engineImage }
            else status
          match getBootID p.nodeName with
          | .ok nodeBootID => { status with nodeBootID := nodeBootID }
          | .error _ => status
      | _ =>
        -- failed/unknown phase; do not reset status.NodeBootID, we need it
        -- to identify a node reboot
        { status with currentState := .error, ip := "", currentImage := "" }

/-- Embeds `deletePodForObject`: issue the Delete API call; on failure it
emits a warning event and returns nil — the API error is swallowed. Only the
`getNameFromObj` failure (not modelled: names always resolve here) can make
it return an error. -/
def deletePodForObject (env : KubeEnv) : Option String :=
  match env.deletePodApiError with
  | some _ => none
  | none => none

/-- Result of one `ReconcileInstanceState` call: the (possibly latched) spec,
the recomputed status, the returned error, and whether the pod Create /
Delete API calls were issued. -/
structure ReconcileResult where
  spec : InstanceSpec
  status : InstanceStatus
  error : Option String
  createIssued : Bool
  deleteIssued : Bool
deriving Repr

/-- Outcome of the fetch plus the `switch spec.DesireState` block of
`ReconcileInstanceState`: either an early `return err`, or fall through to
`syncStatusWithPod` with a pod reference and possibly-updated status. -/
inductive SwitchOutcome where
  | earlyError (e : String) (createIssued deleteIssued : Bool)
  | proceed (pod : Option Pod) (status : InstanceStatus)
      (createIssued deleteIssued : Bool)
deriving Repr

/-- The pod fetch and the `switch spec.DesireState` block of
`ReconcileInstanceState` (lines up to the `syncStatusWithPod` call). -/
def reconcileSwitch (env : KubeEnv) (spec : InstanceSpec)
    (status : InstanceStatus) : SwitchOutcome :=
  match env.getPodResult with
  | .apiError e => .earlyError e false false
  | g =>
    let pod : Option Pod := match g with | .found p => some p | _ => none
    match spec.desireState with
    | .running =>
      match pod with
      | some p =>
        if p.deletionTimestamp = none then
          .proceed pod { status with started := true } false false
        else if status.currentState ≠ InstanceState.stopped then
          .proceed pod status false false
        else
          match env.createPodSpecResult with
          | .error e => .earlyError e false false
          | .ok podSpec =>
            match env.createPodResult podSpec with
            | .error e => .earlyError e true false
            | .ok created => .proceed (some created) status true false
      | none =>
        if status.currentState ≠ InstanceState.stopped then
          .proceed pod status false false
        else
          match env.createPodSpecResult with
          | .error e => .earlyError e false false
          | .ok podSpec =>
            match env.createPodResult podSpec with
            | .error e => .earlyError e true false
            | .ok created => .proceed (some created) status true false
    | .stopped =>
      match pod with
      | some p =>
        if p.deletionTimestamp = none then
          match deletePodForObject env with
          | some e => .earlyError e false true
          | none =>
            .proceed pod { status with started := false, nodeBootID := "" }
              false true
        else
          .proceed pod { status with started := false, nodeBootID := "" }
            false false
      | none =>
        .proceed pod { status with started := false, nodeBootID := "" }
          false false
    | _ =>
      .earlyError
        ("BUG: unknown instance desire state: desire "
          ++ spec.desireState.text)
        false false

/-- The tail of `ReconcileInstanceState` after the switch: project status from
the pod, then the node-pinning post-condition (and, for Error with a live pod,
best-effort log capture, which has no effect on spec/status/error). -/
def reconcileTail (env : KubeEnv) (spec : InstanceSpec)
    (status : InstanceStatus) (pod : Option Pod)
    (createIssued deleteIssued : Bool) : ReconcileResult :=
  let status := syncStatusWithPod env.getBootID pod spec status
  if status.currentState = InstanceState.running then
    match pod with
    | some p =>
      -- pin down to this node ID
      if spec.nodeID = "" then
        { spec := { spec with nodeID := p.nodeName }, status := status,
          error := none, createIssued := createIssued,
          deleteIssued := deleteIssued }
      else if spec.nodeID ≠ p.nodeName then
        { spec := spec,
          status :=
            { status with currentState := .error, ip := "", nodeBootID := "" },
          error :=
            some ("BUG: instance " ++ p.name
              ++ " was not pinned down to the host " ++ spec.nodeID),
          createIssued := createIssued, deleteIssued := deleteIssued }
      else
        { spec := spec, status := status, error := none,
          createIssued := createIssued, deleteIssued := deleteIssued }
    | none =>
      -- unreachable: syncStatusWithPod never yields Running for a nil pod
      { spec := spec, status := status, error := none,
        createIssued := createIssued, deleteIssued := deleteIssued }
  else
    -- the CurrentState = Error diagnostic log capture is logging only
    { spec := spec, status := status, error := none,
      createIssued := createIssued, deleteIssued := deleteIssued }

/-- Embeds `ReconcileInstanceState`: fetch the pod, act on
`spec.DesireState`, then recompute status and enforce post-conditions. -/
def ReconcileInstanceState (env : KubeEnv) (spec : InstanceSpec)
    (status : InstanceStatus) : ReconcileResult :=
  match reconcileSwitch env spec status with
  | .earlyError e ci di =>
    { spec := spec, status := status, error := some e,
      createIssued := ci, deleteIssued := di }
  | .proceed pod status ci di => reconcileTail env spec status pod ci di

/-- The `createIssued` flag of a switch outcome. -/
def SwitchOutcome.createIssued : SwitchOutcome → Bool
  | .earlyError _ ci _ => ci
  | .proceed _ _ ci _ => ci

/- Concrete sample inputs used by the witness and counterexample theorems. -/

/-- A live pod in Running phase, all containers ready, scheduled on node-b. -/
def podRun : Pod :=
  { name := "inst-1", deletionTimestamp := none, phase := .running,
    containerStatuses := [{ ready := true }], podIP := "10.0.0.5",
    nodeName := "node-b" }

/-- A live pod still in Pending phase. -/
def podPend : Pod :=
  { podRun with phase := .pending, podIP := "" }

/-- A pod in Failed phase. -/
def podFailed : Pod :=
  { podRun with phase := .failed }

/-- The running, all-ready pod, but already marked for deletion. -/
def podRunDel : Pod :=
  { podRun with deletionTimestamp := some 1 }

/-- A boot-ID lookup that always succeeds with "boot-1". -/
def gOk : String → Except String String := fun _ => Except.ok "boot-1"

/-- A boot-ID lookup that always fails. -/
def gErr : String → Except String String := fun _ => Except.error "node-gone"

/-- Baseline environment: no pod, all external calls succeed. -/
def envBase : KubeEnv :=
  { getPodResult := .notFound,
    createPodSpecResult := .ok podPend,
    createPodResult := fun ps => .ok ps,
    deletePodApiError := none,
    getBootID := fun _ => .ok "boot-1" }

/-- Environment in which the fetch finds the running pod. -/
def envFoundRun : KubeEnv := { envBase with getPodResult := .found podRun }

/-- Environment in which the fetch finds the pending pod. -/
def envFoundPend : KubeEnv := { envBase with getPodResult := .found podPend }

/-- Environment in which the fetch finds the failed pod. -/
def envFoundFailed : KubeEnv := { envBase with getPodResult := .found podFailed }

/-- Environment whose pod fetch fails with a non-not-found API error. -/
def envFetchFail : KubeEnv :=
  { envBase with getPodResult := .apiError "fetch-fail" }

/-- Environment with the deleting pod present and a failing Create API
call: desire Running with CurrentState = Stopped still reaches the create. -/
def envCreateFailDel : KubeEnv :=
  { getPodResult := .found podRunDel
    createPodSpecResult := .ok podPend
    createPodResult := fun _ => .error "create-fail"
    deletePodApiError := none
    getBootID := fun _ => .ok "boot-1" }

/-- Environment whose pod Create API call fails. -/
def envCreateFail : KubeEnv :=
  { envBase with createPodResult := fun _ => .error "create-fail" }

/-- Environment with the pending pod present and a failing Delete API call. -/
def envDeleteFail : KubeEnv :=
  { envFoundPend with deletePodApiError := some "delete-fail" }

/-- Spec desiring Running, node not yet latched. -/
def specRun : InstanceSpec :=
  { desireState := .running, nodeID := "", engineImage := "img-1" }

/-- Spec desiring Running, pinned to node-a. -/
def specRunPinned : InstanceSpec := { specRun with nodeID := "node-a" }

/-- Spec desiring Stopped. -/
def specStop : InstanceSpec := { specRun with desireState := .stopped }

/-- Spec with an illegal desired state (neither Running nor Stopped). -/
def specBad : InstanceSpec := { specRun with desireState := .starting }

/-- A pristine status: Stopped, not started, all strings empty. -/
def statusZero : InstanceStatus :=
  { currentState := .stopped, started := false, ip := "", currentImage := "",
    nodeBootID := "" }

/-- A status in Error with a start attempt in effect. -/
def statusErrStarted : InstanceStatus :=
  { statusZero with currentState := .error, started := true }

/-- A status with a previously latched image and boot ID. -/
def statusLatched : InstanceStatus :=
  { statusZero with
    currentState := .running
    started := true
    ip := "10.0.0.5"
    currentImage := "img-0"
    nodeBootID := "boot-0" }

theorem sync_running_ready (g : String → Except String String) (p : Pod)
    (spec : InstanceSpec) (status : InstanceStatus)
    (hdt : p.deletionTimestamp = none)
    (hph : p.phase = PodPhase.running)
    (hrdy : (p.containerStatuses.any fun st => !st.ready) = false) :
    syncStatusWithPod g (some p) spec status =
      { currentState := InstanceState.running
        started := status.started
        ip := p.podIP
        currentImage :=
          if status.currentImage = "" then spec.engineImage
          else status.currentImage
        nodeBootID :=
          match g p.nodeName with
          | .ok b => b
          | .error _ => status.nodeBootID } := by
  unfold syncStatusWithPod
  simp only [hdt, hph, hrdy, Option.isSome_none, Bool.false_eq_true, if_false]
  by_cases hip : status.ip = p.podIP <;>
    by_cases himg : status.currentImage = "" <;>
      cases hb : g p.nodeName <;>
        simp [hip, himg, hb, bne_iff_ne]

theorem sync_none (g : String → Except String String) (spec : InstanceSpec)
    (status : InstanceStatus) :
    syncStatusWithPod g none spec status =
      if status.started then
        { status with currentState := .error, ip := "", currentImage := "" }
      else
        { status with currentState := .stopped, ip := "", currentImage := "" } :=
  rfl

theorem sync_deleting (g : String → Except String String) (p : Pod)
    (spec : InstanceSpec) (status : InstanceStatus)
    (hdt : p.deletionTimestamp.isSome = true) :
    syncStatusWithPod g (some p) spec status =
      { status with currentState := .stopping, ip := "", currentImage := "" } := by
  unfold syncStatusWithPod
  simp [hdt]

theorem sync_pending (g : String → Except String String) (p : Pod)
    (spec : InstanceSpec) (status : InstanceStatus)
    (hdt : p.deletionTimestamp = none) (hph : p.phase = PodPhase.pending) :
    syncStatusWithPod g (some p) spec status =
      { status with currentState := .starting, ip := "", currentImage := "" } := by
  unfold syncStatusWithPod
  simp [hdt, hph]

theorem sync_running_notready (g : String → Except String String) (p : Pod)
    (spec : InstanceSpec) (status : InstanceStatus)
    (hdt : p.deletionTimestamp = none) (hph : p.phase = PodPhase.running)
    (hrdy : (p.containerStatuses.any fun st => !st.ready) = true) :
    syncStatusWithPod g (some p) spec status =
      { status with currentState := .starting, ip := "", currentImage := "" } := by
  unfold syncStatusWithPod
  simp [hdt, hph, hrdy]

theorem sync_other_phase (g : String → Except String String) (p : Pod)
    (spec : InstanceSpec) (status : InstanceStatus)
    (hdt : p.deletionTimestamp = none)
    (hph1 : p.phase ≠ PodPhase.pending) (hph2 : p.phase ≠ PodPhase.running) :
    syncStatusWithPod g (some p) spec status =
      { status with currentState := .error, ip := "", currentImage := "" } := by
  unfold syncStatusWithPod
  cases hph : p.phase <;> simp_all

theorem sync_started (g : String → Except String String) (pod : Option Pod)
    (spec : InstanceSpec) (status : InstanceStatus) :
    (syncStatusWithPod g pod spec status).started = status.started := by
  cases pod with
  | none => rw [sync_none]; split <;> rfl
  | some p =>
    by_cases hdt : p.deletionTimestamp.isSome
    · rw [sync_deleting g p spec status hdt]
    · have hdt' : p.deletionTimestamp = none :=
        Option.not_isSome_iff_eq_none.mp hdt
      cases hph : p.phase
      · rw [sync_pending g p spec status hdt' hph]
      · by_cases hrdy : (p.containerStatuses.any fun st => !st.ready) = true
        · rw [sync_running_notready g p spec status hdt' hph hrdy]
        · rw [sync_running_ready g p spec status hdt' hph
            (Bool.not_eq_true _ ▸ hrdy)]
      · rw [sync_other_phase g p spec status hdt'] <;> simp [hph]
      · rw [sync_other_phase g p spec status hdt'] <;> simp [hph]
      · rw [sync_other_phase g p spec status hdt'] <;> simp [hph]

theorem tail_createIssued (env : KubeEnv) (spec : InstanceSpec)
    (status : InstanceStatus) (pod : Option Pod) (ci di : Bool) :
    (reconcileTail env spec status pod ci di).createIssued = ci := by
  simp only [reconcileTail]
  cases pod with
  | none => split <;> rfl
  | some p =>
    split
    · dsimp only
      split_ifs <;> rfl
    · rfl

theorem tail_deleteIssued (env : KubeEnv) (spec : InstanceSpec)
    (status : InstanceStatus) (pod : Option Pod) (ci di : Bool) :
    (reconcileTail env spec status pod ci di).deleteIssued = di := by
  simp only [reconcileTail]
  cases pod with
  | none => split <;> rfl
  | some p =>
    split
    · dsimp only
      split_ifs <;> rfl
    · rfl

theorem tail_started (env : KubeEnv) (spec : InstanceSpec)
    (status : InstanceStatus) (pod : Option Pod) (ci di : Bool) :
    (reconcileTail env spec status pod ci di).status.started = status.started := by
  simp only [reconcileTail]
  cases pod with
  | none => split <;> simp [sync_started]
  | some p =>
    split
    · dsimp only
      split_ifs <;> simp [sync_started]
    · simp [sync_started]

theorem tail_desire (env : KubeEnv) (spec : InstanceSpec)
    (status : InstanceStatus) (pod : Option Pod) (ci di : Bool) :
    (reconcileTail env spec status pod ci di).spec.desireState =
      spec.desireState := by
  simp only [reconcileTail]
  cases pod with
  | none => split <;> rfl
  | some p =>
    split
    · dsimp only
      split_ifs <;> rfl
    · rfl

theorem deletePodForObject_eq_none (env : KubeEnv) :
    deletePodForObject env = none := by
  unfold deletePodForObject
  cases env.deletePodApiError <;> rfl

theorem switch_apiError (env : KubeEnv) (spec : InstanceSpec)
    (status : InstanceStatus) (e : String)
    (hg : env.getPodResult = PodGetResult.apiError e) :
    reconcileSwitch env spec status = .earlyError e false false := by
  unfold reconcileSwitch
  rw [hg]

theorem switch_running_live (env : KubeEnv) (spec : InstanceSpec)
    (status : InstanceStatus) (p : Pod)
    (hds : spec.desireState = InstanceState.running)
    (hg : env.getPodResult = PodGetResult.found p)
    (hdt : p.deletionTimestamp = none) :
    reconcileSwitch env spec status =
      .proceed (some p) { status with started := true } false false := by
  unfold reconcileSwitch
  rw [hg]
  simp [hds, hdt]

theorem switch_running_absent_guard (env : KubeEnv) (spec : InstanceSpec)
    (status : InstanceStatus)
    (hds : spec.desireState = InstanceState.running)
    (hg : env.getPodResult = PodGetResult.notFound)
    (hcs : status.currentState ≠ InstanceState.stopped) :
    reconcileSwitch env spec status = .proceed none status false false := by
  unfold reconcileSwitch
  rw [hg]
  simp [hds, hcs]

theorem switch_running_create_ok (env : KubeEnv) (spec : InstanceSpec)
    (status : InstanceStatus) (ps created : Pod)
    (hds : spec.desireState = InstanceState.running)
    (hg : env.getPodResult = PodGetResult.notFound)
    (hcs : status.currentState = InstanceState.stopped)
    (hps : env.createPodSpecResult = Except.ok ps)
    (hcr : env.createPodResult ps = Except.ok created) :
    reconcileSwitch env spec status =
      .proceed (some created) status true false := by
  unfold reconcileSwitch
  rw [hg]
  simp [hds, hcs, hps, hcr]

theorem switch_running_create_err (env : KubeEnv) (spec : InstanceSpec)
    (status : InstanceStatus) (ps : Pod) (e : String)
    (hds : spec.desireState = InstanceState.running)
    (hg : env.getPodResult = PodGetResult.notFound)
    (hcs : status.currentState = InstanceState.stopped)
    (hps : env.createPodSpecResult = Except.ok ps)
    (hcr : env.createPodResult ps = Except.error e) :
    reconcileSwitch env spec status = .earlyError e true false := by
  unfold reconcileSwitch
  rw [hg]
  simp [hds, hcs, hps, hcr]

theorem switch_stopped_live (env : KubeEnv) (spec : InstanceSpec)
    (status : InstanceStatus) (p : Pod)
    (hds : spec.desireState = InstanceState.stopped)
    (hg : env.getPodResult = PodGetResult.found p)
    (hdt : p.deletionTimestamp = none) :
    reconcileSwitch env spec status =
      .proceed (some p) { status with started := false, nodeBootID := "" }
        false true := by
  unfold reconcileSwitch
  rw [hg]
  simp [hds, hdt, deletePodForObject_eq_none]

theorem switch_stopped_absent (env : KubeEnv) (spec : InstanceSpec)
    (status : InstanceStatus)
    (hds : spec.desireState = InstanceState.stopped)
    (hg : env.getPodResult = PodGetResult.notFound) :
    reconcileSwitch env spec status =
      .proceed none { status with started := false, nodeBootID := "" }
        false false := by
  unfold reconcileSwitch
  rw [hg]
  simp [hds]

theorem reconcile_of_proceed (env : KubeEnv) (spec : InstanceSpec)
    (status : InstanceStatus) (pod : Option Pod) (st : InstanceStatus)
    (ci di : Bool)
    (h : reconcileSwitch env spec status = .proceed pod st ci di) :
    ReconcileInstanceState env spec status =
      reconcileTail env spec st pod ci di := by
  unfold ReconcileInstanceState
  rw [h]

theorem reconcile_of_earlyError (env : KubeEnv) (spec : InstanceSpec)
    (status : InstanceStatus) (e : String) (ci di : Bool)
    (h : reconcileSwitch env spec status = .earlyError e ci di) :
    ReconcileInstanceState env spec status =
      { spec := spec, status := status, error := some e,
        createIssued := ci, deleteIssued := di } := by
  unfold ReconcileInstanceState
  rw [h]

theorem reconcile_createIssued (env : KubeEnv) (spec : InstanceSpec)
    (status : InstanceStatus) :
    (ReconcileInstanceState env spec status).createIssued =
      (reconcileSwitch env spec status).createIssued := by
  unfold ReconcileInstanceState
  cases h : reconcileSwitch env spec status <;>
    simp [SwitchOutcome.createIssued, tail_createIssued]

theorem switch_running_deleting_guard (env : KubeEnv) (spec : InstanceSpec)
    (status : InstanceStatus) (p : Pod)
    (hds : spec.desireState = InstanceState.running)
    (hg : env.getPodResult = PodGetResult.found p)
    (hdt : p.deletionTimestamp ≠ none)
    (hcs : status.currentState ≠ InstanceState.stopped) :
    reconcileSwitch env spec status = .proceed (some p) status false false := by
  unfold reconcileSwitch
  rw [hg]
  simp [hds, hdt, hcs]

theorem switch_stopped_deleting (env : KubeEnv) (spec : InstanceSpec)
    (status : InstanceStatus) (p : Pod)
    (hds : spec.desireState = InstanceState.stopped)
    (hg : env.getPodResult = PodGetResult.found p)
    (hdt : p.deletionTimestamp ≠ none) :
    reconcileSwitch env spec status =
      .proceed (some p) { status with started := false, nodeBootID := "" }
        false false := by
  unfold reconcileSwitch
  rw [hg]
  simp [hds, hdt]

theorem switch_bad_desire (env : KubeEnv) (spec : InstanceSpec)
    (status : InstanceStatus)
    (hds1 : spec.desireState ≠ InstanceState.running)
    (hds2 : spec.desireState ≠ InstanceState.stopped) :
    ∃ e, reconcileSwitch env spec status = .earlyError e false false := by
  unfold reconcileSwitch
  cases hg : env.getPodResult <;>
    cases hds : spec.desireState <;>
      simp_all

theorem switch_createIssued_true (env : KubeEnv) (spec : InstanceSpec)
    (status : InstanceStatus)
    (h : (reconcileSwitch env spec status).createIssued = true) :
    spec.desireState = InstanceState.running ∧
      status.currentState = InstanceState.stopped := by
  by_cases hds : spec.desireState = InstanceState.running
  · refine ⟨hds, ?_⟩
    by_cases hcs : status.currentState = InstanceState.stopped
    · exact hcs
    · exfalso
      cases hg : env.getPodResult with
      | found p =>
        by_cases hdt : p.deletionTimestamp = none
        · rw [switch_running_live env spec status p hds hg hdt] at h
          simp [SwitchOutcome.createIssued] at h
        · rw [switch_running_deleting_guard env spec status p hds hg hdt hcs]
            at h
          simp [SwitchOutcome.createIssued] at h
      | notFound =>
        rw [switch_running_absent_guard env spec status hds hg hcs] at h
        simp [SwitchOutcome.createIssued] at h
      | apiError e =>
        rw [switch_apiError env spec status e hg] at h
        simp [SwitchOutcome.createIssued] at h
  · exfalso
    by_cases hds2 : spec.desireState = InstanceState.stopped
    · cases hg : env.getPodResult with
      | found p =>
        by_cases hdt : p.deletionTimestamp = none
        · rw [switch_stopped_live env spec status p hds2 hg hdt] at h
          simp [SwitchOutcome.createIssued] at h
        · rw [switch_stopped_deleting env spec status p hds2 hg hdt] at h
          simp [SwitchOutcome.createIssued] at h
      | notFound =>
        rw [switch_stopped_absent env spec status hds2 hg] at h
        simp [SwitchOutcome.createIssued] at h
      | apiError e =>
        rw [switch_apiError env spec status e hg] at h
        simp [SwitchOutcome.createIssued] at h
    · obtain ⟨e, he⟩ := switch_bad_desire env spec status hds hds2
      rw [he] at h
      simp [SwitchOutcome.createIssued] at h

theorem reconcile_bad_desire (env : KubeEnv) (spec : InstanceSpec)
    (status : InstanceStatus)
    (hds1 : spec.desireState ≠ InstanceState.running)
    (hds2 : spec.desireState ≠ InstanceState.stopped) :
    ∃ e, ReconcileInstanceState env spec status =
      { spec := spec, status := status, error := some e,
        createIssued := false, deleteIssued := false } := by
  unfold ReconcileInstanceState reconcileSwitch
  cases hg : env.getPodResult <;>
    cases hds : spec.desireState <;>
      simp_all

theorem tail_none_eq (env : KubeEnv) (spec : InstanceSpec)
    (status : InstanceStatus) (ci di : Bool) :
    reconcileTail env spec status none ci di =
      { spec := spec,
        status := syncStatusWithPod env.getBootID none spec status,
        error := none, createIssued := ci, deleteIssued := di } := by
  simp only [reconcileTail]
  split <;> rfl

/-- C1: when the post-switch status projection yields CurrentState = Running
for a pod whose node disagrees with a non-empty spec.NodeID,
ReconcileInstanceState forces CurrentState = Error, clears IP and NodeBootID,
and returns a non-nil error. -/
theorem C1_node_pin_violation (env : KubeEnv) (spec : InstanceSpec)
    (status st1 : InstanceStatus) (p : Pod) (ci di : Bool)
    (hsw : reconcileSwitch env spec status =
      SwitchOutcome.proceed (some p) st1 ci di)
    (hrun : (syncStatusWithPod env.getBootID (some p) spec st1).currentState =
      InstanceState.running)
    (hne : spec.nodeID ≠ "")
    (hmm : spec.nodeID ≠ p.nodeName) :
    (ReconcileInstanceState env spec status).error.isSome = true ∧
    (ReconcileInstanceState env spec status).status.currentState =
      InstanceState.error ∧
    (ReconcileInstanceState env spec status).status.ip = "" ∧
    (ReconcileInstanceState env spec status).status.nodeBootID = "" := by
  rw [reconcile_of_proceed env spec status (some p) st1 ci di hsw]
  simp only [reconcileTail]
  simp [hrun, hne, hmm]

/-- C1 witness: spec pinned to node-a, pod actually on node-b. -/
theorem C1_witness :
    (ReconcileInstanceState envFoundRun specRunPinned statusZero).error.isSome
        = true ∧
    (ReconcileInstanceState envFoundRun specRunPinned
        statusZero).status.currentState = InstanceState.error ∧
    (ReconcileInstanceState envFoundRun specRunPinned
        statusZero).status.ip = "" ∧
    (ReconcileInstanceState envFoundRun specRunPinned
        statusZero).status.nodeBootID = "" :=
  C1_node_pin_violation envFoundRun specRunPinned statusZero
    { statusZero with started := true } podRun false false
    rfl rfl (by decide) (by decide)

/-- C2: with DesireState = Running, the pod absent (not found),
Started = true and CurrentState = Error, no pod creation is issued, the
status stays in Error with Started still true, and the identical next cycle
behaves the same. -/
theorem C2_no_self_heal_from_error (env : KubeEnv) (spec : InstanceSpec)
    (status : InstanceStatus)
    (hds : spec.desireState = InstanceState.running)
    (hg : env.getPodResult = PodGetResult.notFound)
    (hst : status.started = true)
    (hcs : status.currentState = InstanceState.error) :
    (ReconcileInstanceState env spec status).createIssued = false ∧
    (ReconcileInstanceState env spec status).status.currentState =
      InstanceState.error ∧
    (ReconcileInstanceState env spec status).status.started = true ∧
    (ReconcileInstanceState env (ReconcileInstanceState env spec status).spec
        (ReconcileInstanceState env spec status).status).createIssued
      = false ∧
    (ReconcileInstanceState env (ReconcileInstanceState env spec status).spec
        (ReconcileInstanceState env spec status).status).status.currentState
      = InstanceState.error ∧
    (ReconcileInstanceState env (ReconcileInstanceState env spec status).spec
        (ReconcileInstanceState env spec status).status).status.started
      = true := by
  have hcs1 : status.currentState ≠ InstanceState.stopped := by
    rw [hcs]; intro hcontra; cases hcontra
  have h1 : ReconcileInstanceState env spec status =
      { spec := spec
        status := { status with
          currentState := InstanceState.error
          ip := ""
          currentImage := "" }
        error := none
        createIssued := false
        deleteIssued := false } := by
    rw [reconcile_of_proceed env spec status none status false false
      (switch_running_absent_guard env spec status hds hg hcs1),
      tail_none_eq, sync_none]
    simp [hst]
  have h2 : ReconcileInstanceState env spec
      { status with
        currentState := InstanceState.error
        ip := ""
        currentImage := "" } =
      { spec := spec
        status := { status with
          currentState := InstanceState.error
          ip := ""
          currentImage := "" }
        error := none
        createIssued := false
        deleteIssued := false } := by
    rw [reconcile_of_proceed env spec _ none _ false false
      (switch_running_absent_guard env spec _ hds hg (by simp)),
      tail_none_eq, sync_none]
    simp [hst]
  rw [h1]
  dsimp only
  rw [h2]
  exact ⟨rfl, rfl, hst, rfl, rfl, hst⟩

/-- C2 witness: desire Running, no pod, status Error with Started = true. -/
theorem C2_witness :
    (ReconcileInstanceState envBase specRun statusErrStarted).createIssued
        = false ∧
    (ReconcileInstanceState envBase specRun
        statusErrStarted).status.currentState = InstanceState.error ∧
    (ReconcileInstanceState envBase specRun statusErrStarted).status.started
        = true ∧
    (ReconcileInstanceState envBase
        (ReconcileInstanceState envBase specRun statusErrStarted).spec
        (ReconcileInstanceState envBase specRun
          statusErrStarted).status).createIssued = false ∧
    (ReconcileInstanceState envBase
        (ReconcileInstanceState envBase specRun statusErrStarted).spec
        (ReconcileInstanceState envBase specRun
          statusErrStarted).status).status.currentState
      = InstanceState.error ∧
    (ReconcileInstanceState envBase
        (ReconcileInstanceState envBase specRun statusErrStarted).spec
        (ReconcileInstanceState envBase specRun
          statusErrStarted).status).status.started = true :=
  C2_no_self_heal_from_error envBase specRun statusErrStarted rfl rfl rfl rfl

/-- C3 counterexample: an unknown desired state returns an error, but the
status is left untouched — CurrentState is NOT forced to Error, refuting the
side-effect half of the claim. -/
theorem C3_counterexample :
    specBad.desireState ≠ InstanceState.running ∧
    specBad.desireState ≠ InstanceState.stopped ∧
    (ReconcileInstanceState envBase specBad statusZero).error.isSome = true ∧
    (ReconcileInstanceState envBase specBad statusZero).status.currentState ≠
      InstanceState.error := by
  refine ⟨by decide, by decide, rfl, by decide⟩

/-- C3 amended: a desired state that is neither Running nor Stopped makes
ReconcileInstanceState return a non-nil error, with spec and status left
unmodified (the status is not forced to Error). -/
theorem C3_unknown_desire_state (env : KubeEnv) (spec : InstanceSpec)
    (status : InstanceStatus)
    (hds1 : spec.desireState ≠ InstanceState.running)
    (hds2 : spec.desireState ≠ InstanceState.stopped) :
    (ReconcileInstanceState env spec status).error.isSome = true ∧
    (ReconcileInstanceState env spec status).status = status ∧
    (ReconcileInstanceState env spec status).spec = spec := by
  obtain ⟨e, he⟩ := reconcile_bad_desire env spec status hds1 hds2
  rw [he]
  simp

/-- C3 amended witness: desire Starting, pristine status. -/
theorem C3_witness :
    (ReconcileInstanceState envBase specBad statusZero).error.isSome = true ∧
    (ReconcileInstanceState envBase specBad statusZero).status = statusZero ∧
    (ReconcileInstanceState envBase specBad statusZero).spec = specBad :=
  C3_unknown_desire_state envBase specBad statusZero (by decide) (by decide)

/-- C4 counterexample: a failing pod Delete API call is swallowed — the
delete is issued, the error is some, yet ReconcileInstanceState returns
nil, refuting unconditional propagation of delete errors. -/
theorem C4_counterexample :
    envDeleteFail.deletePodApiError = some "delete-fail" ∧
    specStop.desireState = InstanceState.stopped ∧
    (ReconcileInstanceState envDeleteFail specStop statusZero).deleteIssued
        = true ∧
    (ReconcileInstanceState envDeleteFail specStop statusZero).error
        = none := by
  refine ⟨rfl, rfl, rfl, rfl⟩

theorem tail_congr_getBootID (env env2 : KubeEnv)
    (h : env.getBootID = env2.getBootID) (spec : InstanceSpec)
    (status : InstanceStatus) (pod : Option Pod) (ci di : Bool) :
    reconcileTail env spec status pod ci di =
      reconcileTail env2 spec status pod ci di := by
  unfold reconcileTail
  rw [h]

theorem switch_delete_irrelevant (env : KubeEnv) (spec : InstanceSpec)
    (status : InstanceStatus) (d1 d2 : Option String) :
    reconcileSwitch { env with deletePodApiError := d1 } spec status =
      reconcileSwitch { env with deletePodApiError := d2 } spec status := by
  unfold reconcileSwitch
  simp [deletePodForObject_eq_none]

theorem switch_running_deleting_create_err (env : KubeEnv)
    (spec : InstanceSpec) (status : InstanceStatus) (p ps : Pod) (e : String)
    (hds : spec.desireState = InstanceState.running)
    (hg : env.getPodResult = PodGetResult.found p)
    (hdt : p.deletionTimestamp ≠ none)
    (hcs : status.currentState = InstanceState.stopped)
    (hps : env.createPodSpecResult = Except.ok ps)
    (hcr : env.createPodResult ps = Except.error e) :
    reconcileSwitch env spec status = .earlyError e true false := by
  unfold reconcileSwitch
  rw [hg]
  simp [hds, hdt, hcs, hps, hcr]

/-- C4 amended: non-not-found pod fetch errors and pod Create errors (from
either create-reaching path: pod absent, or found pod marked for deletion)
are propagated to the caller unchanged, but a pod Delete API failure is
swallowed (a warning event is emitted and reconciliation proceeds as if the
delete succeeded). -/
theorem C4_error_propagation (env : KubeEnv) (spec : InstanceSpec)
    (status : InstanceStatus) :
    (∀ e, env.getPodResult = PodGetResult.apiError e →
      (ReconcileInstanceState env spec status).error = some e) ∧
    (∀ e ps, spec.desireState = InstanceState.running →
      (env.getPodResult = PodGetResult.notFound ∨
        (∃ p, env.getPodResult = PodGetResult.found p ∧
          p.deletionTimestamp ≠ none)) →
      status.currentState = InstanceState.stopped →
      env.createPodSpecResult = Except.ok ps →
      env.createPodResult ps = Except.error e →
      (ReconcileInstanceState env spec status).error = some e) ∧
    (∀ e, ReconcileInstanceState
        { env with deletePodApiError := some e } spec status =
      ReconcileInstanceState
        { env with deletePodApiError := none } spec status) := by
  refine ⟨?_, ?_, ?_⟩
  · intro e hg
    rw [reconcile_of_earlyError env spec status e false false
      (switch_apiError env spec status e hg)]
  · intro e ps hds hg hcs hps hcr
    cases hg with
    | inl hnf =>
      rw [reconcile_of_earlyError env spec status e true false
        (switch_running_create_err env spec status ps e hds hnf hcs hps hcr)]
    | inr hfound =>
      obtain ⟨p, hfp, hdt⟩ := hfound
      rw [reconcile_of_earlyError env spec status e true false
        (switch_running_deleting_create_err env spec status p ps e hds hfp
          hdt hcs hps hcr)]
  · intro e
    unfold ReconcileInstanceState
    rw [switch_delete_irrelevant env spec status (some e) none]
    cases h : reconcileSwitch { env with deletePodApiError := none }
        spec status with
    | earlyError e2 ci di => rfl
    | proceed pod st ci di =>
      exact tail_congr_getBootID _ _ rfl spec st pod ci di

/-- C4 amended witness: fetch error propagated, create error propagated on
both create-reaching paths (pod absent; found pod marked for deletion),
delete error swallowed. -/
theorem C4_witness :
    (ReconcileInstanceState envFetchFail specRun statusZero).error
        = some "fetch-fail" ∧
    (ReconcileInstanceState envCreateFail specRun statusZero).error
        = some "create-fail" ∧
    (ReconcileInstanceState envCreateFailDel specRun statusZero).error
        = some "create-fail" ∧
    ReconcileInstanceState envDeleteFail specStop statusZero =
      ReconcileInstanceState { envDeleteFail with deletePodApiError := none }
        specStop statusZero :=
  ⟨(C4_error_propagation envFetchFail specRun statusZero).1 "fetch-fail" rfl,
   (C4_error_propagation envCreateFail specRun statusZero).2.1 "create-fail"
     podPend rfl (Or.inl rfl) rfl rfl rfl,
   (C4_error_propagation envCreateFailDel specRun statusZero).2.1
     "create-fail" podPend rfl (Or.inr ⟨podRunDel, rfl, by decide⟩)
     rfl rfl rfl,
   (C4_error_propagation envFoundPend specStop statusZero).2.2 "delete-fail"⟩

/-- C5 counterexample: for a pod in Running phase with all containers ready
but already marked for deletion, the projection takes the Stopping branch and
clears a previously latched non-empty CurrentImage, refuting the claim as
stated. -/
theorem C5_counterexample :
    podRunDel.phase = PodPhase.running ∧
    (∀ st ∈ podRunDel.containerStatuses, st.ready = true) ∧
    statusLatched.currentImage ≠ "" ∧
    (syncStatusWithPod gOk (some podRunDel) specRun
        statusLatched).currentImage ≠ statusLatched.currentImage := by
  refine ⟨rfl, by decide, by decide, by decide⟩

/-- C5 amended: for a Running, all-ready pod that is not marked for
deletion, the projection treats CurrentImage as a first-start latch: a
non-empty CurrentImage is left unchanged (even if spec.EngineImage differs)
and an empty one is set to spec.EngineImage. -/
theorem C5_currentImage_latch (g : String → Except String String) (p : Pod)
    (spec : InstanceSpec) (status : InstanceStatus)
    (hdt : p.deletionTimestamp = none)
    (hph : p.phase = PodPhase.running)
    (hready : ∀ st ∈ p.containerStatuses, st.ready = true) :
    (status.currentImage ≠ "" →
      (syncStatusWithPod g (some p) spec status).currentImage =
        status.currentImage) ∧
    (status.currentImage = "" →
      (syncStatusWithPod g (some p) spec status).currentImage =
        spec.engineImage) := by
  have hrdy : (p.containerStatuses.any fun st => !st.ready) = false := by
    simp only [List.any_eq_false]
    intro st hst
    simp [hready st hst]
  rw [sync_running_ready g p spec status hdt hph hrdy]
  constructor
  · intro h
    simp [h]
  · intro h
    simp [h]

/-- C5 witness: a latched image "img-0" survives although the spec image is
"img-1". -/
theorem C5_witness :
    (statusLatched.currentImage ≠ "" →
      (syncStatusWithPod gOk (some podRun) specRun
          statusLatched).currentImage = statusLatched.currentImage) ∧
    (statusLatched.currentImage = "" →
      (syncStatusWithPod gOk (some podRun) specRun
          statusLatched).currentImage = specRun.engineImage) :=
  C5_currentImage_latch gOk podRun specRun statusLatched rfl rfl (by decide)

/-- C6: with a nil pod the projection yields Error when Started and Stopped
otherwise, clearing IP and CurrentImage in both cases. -/
theorem C6_absent_pod_projection (g : String → Except String String)
    (spec : InstanceSpec) (status : InstanceStatus) :
    (syncStatusWithPod g none spec status).currentState =
      (if status.started then InstanceState.error
        else InstanceState.stopped) ∧
    (syncStatusWithPod g none spec status).ip = "" ∧
    (syncStatusWithPod g none spec status).currentImage = "" := by
  rw [sync_none]
  by_cases h : status.started <;> simp [h]

/-- C7: with DesireState = Running and a live (non-deleting) fetched pod,
no create is issued and Started is set to true; repeating the cycle still
issues no create; and in general a create is only ever issued when
CurrentState = Stopped. -/
theorem C7_start_idempotent (env : KubeEnv) (spec : InstanceSpec)
    (status : InstanceStatus) (p : Pod)
    (hds : spec.desireState = InstanceState.running)
    (hg : env.getPodResult = PodGetResult.found p)
    (hdt : p.deletionTimestamp = none) :
    (ReconcileInstanceState env spec status).createIssued = false ∧
    (ReconcileInstanceState env spec status).status.started = true ∧
    (ReconcileInstanceState env (ReconcileInstanceState env spec status).spec
        (ReconcileInstanceState env spec status).status).createIssued
      = false ∧
    (∀ env2 spec2 status2,
      (ReconcileInstanceState env2 spec2 status2).createIssued = true →
        spec2.desireState = InstanceState.running ∧
          status2.currentState = InstanceState.stopped) := by
  have hsw := switch_running_live env spec status p hds hg hdt
  have h1 := reconcile_of_proceed env spec status (some p)
    { status with started := true } false false hsw
  refine ⟨?_, ?_, ?_, ?_⟩
  · rw [h1, tail_createIssued]
  · rw [h1, tail_started]
  · have hds2 : (ReconcileInstanceState env spec status).spec.desireState =
        InstanceState.running := by
      rw [h1, tail_desire]
      exact hds
    have hsw2 := switch_running_live env
      (ReconcileInstanceState env spec status).spec
      (ReconcileInstanceState env spec status).status p hds2 hg hdt
    rw [reconcile_of_proceed _ _ _ _ _ _ _ hsw2, tail_createIssued]
  · intro env2 spec2 status2 h
    rw [reconcile_createIssued] at h
    exact switch_createIssued_true env2 spec2 status2 h

/-- C7 witness: desire Running with the live running pod already present. -/
theorem C7_witness :
    (ReconcileInstanceState envFoundRun specRun statusZero).createIssued
        = false ∧
    (ReconcileInstanceState envFoundRun specRun statusZero).status.started
        = true ∧
    (ReconcileInstanceState envFoundRun
        (ReconcileInstanceState envFoundRun specRun statusZero).spec
        (ReconcileInstanceState envFoundRun specRun
          statusZero).status).createIssued = false ∧
    (∀ env2 spec2 status2,
      (ReconcileInstanceState env2 spec2 status2).createIssued = true →
        spec2.desireState = InstanceState.running ∧
          status2.currentState = InstanceState.stopped) :=
  C7_start_idempotent envFoundRun specRun statusZero podRun rfl rfl rfl

/-- C8: with DesireState = Stopped and no fetched pod, no delete is issued,
Started becomes false and NodeBootID is cleared, and the identical next
cycle behaves the same. -/
theorem C8_stop_idempotent (env : KubeEnv) (spec : InstanceSpec)
    (status : InstanceStatus)
    (hds : spec.desireState = InstanceState.stopped)
    (hg : env.getPodResult = PodGetResult.notFound) :
    (ReconcileInstanceState env spec status).deleteIssued = false ∧
    (ReconcileInstanceState env spec status).status.started = false ∧
    (ReconcileInstanceState env spec status).status.nodeBootID = "" ∧
    (ReconcileInstanceState env (ReconcileInstanceState env spec status).spec
        (ReconcileInstanceState env spec status).status).deleteIssued
      = false ∧
    (ReconcileInstanceState env (ReconcileInstanceState env spec status).spec
        (ReconcileInstanceState env spec status).status).status.started
      = false ∧
    (ReconcileInstanceState env (ReconcileInstanceState env spec status).spec
        (ReconcileInstanceState env spec status).status).status.nodeBootID
      = "" := by
  have h1 : ReconcileInstanceState env spec status =
      { spec := spec
        status := { status with
          currentState := InstanceState.stopped
          started := false
          ip := ""
          currentImage := ""
          nodeBootID := "" }
        error := none
        createIssued := false
        deleteIssued := false } := by
    rw [reconcile_of_proceed env spec status none _ false false
      (switch_stopped_absent env spec status hds hg),
      tail_none_eq, sync_none]
    simp
  have h2 : ReconcileInstanceState env spec
      { status with
        currentState := InstanceState.stopped
        started := false
        ip := ""
        currentImage := ""
        nodeBootID := "" } =
      { spec := spec
        status := { status with
          currentState := InstanceState.stopped
          started := false
          ip := ""
          currentImage := ""
          nodeBootID := "" }
        error := none
        createIssued := false
        deleteIssued := false } := by
    rw [reconcile_of_proceed env spec _ none _ false false
      (switch_stopped_absent env spec _ hds hg),
      tail_none_eq, sync_none]
    simp
  rw [h1]
  dsimp only
  rw [h2]
  exact ⟨rfl, rfl, rfl, rfl, rfl, rfl⟩

/-- C8 witness: desire Stopped, pod not found, previously latched status. -/
theorem C8_witness :
    (ReconcileInstanceState envBase specStop statusLatched).deleteIssued
        = false ∧
    (ReconcileInstanceState envBase specStop statusLatched).status.started
        = false ∧
    (ReconcileInstanceState envBase specStop statusLatched).status.nodeBootID
        = "" ∧
    (ReconcileInstanceState envBase
        (ReconcileInstanceState envBase specStop statusLatched).spec
        (ReconcileInstanceState envBase specStop
          statusLatched).status).deleteIssued = false ∧
    (ReconcileInstanceState envBase
        (ReconcileInstanceState envBase specStop statusLatched).spec
        (ReconcileInstanceState envBase specStop
          statusLatched).status).status.started = false ∧
    (ReconcileInstanceState envBase
        (ReconcileInstanceState envBase specStop statusLatched).spec
        (ReconcileInstanceState envBase specStop
          statusLatched).status).status.nodeBootID = "" :=
  C8_stop_idempotent envBase specStop statusLatched rfl rfl

/-- C9 counterexample: for a pod marked for deletion but in Running phase
with all containers ready and a succeeding boot-ID lookup, the projection
takes the Stopping branch and keeps the old NodeBootID instead of the
looked-up value, refuting the claim as stated. -/
theorem C9_counterexample :
    podRunDel.phase = PodPhase.running ∧
    (∀ st ∈ podRunDel.containerStatuses, st.ready = true) ∧
    gOk podRunDel.nodeName = Except.ok "boot-1" ∧
    (syncStatusWithPod gOk (some podRunDel) specRun
        statusLatched).nodeBootID ≠ "boot-1" ∧
    (syncStatusWithPod gOk (some podRunDel) specRun
        statusLatched).nodeBootID = statusLatched.nodeBootID := by
  refine ⟨rfl, by decide, rfl, by decide, rfl⟩

/-- C9 amended: the projection leaves NodeBootID untouched in every case
except a non-deleting, Running, all-ready pod with a successful boot-ID
lookup, where it becomes the looked-up value; moreover a failed lookup
neither changes NodeBootID nor stops the projection from reaching
CurrentState = Running. -/
theorem C9_nodeBootID_frame (g : String → Except String String)
    (pod : Option Pod) (spec : InstanceSpec) (status : InstanceStatus) :
    ((syncStatusWithPod g pod spec status).nodeBootID =
      match pod with
      | none => status.nodeBootID
      | some p =>
        if p.deletionTimestamp = none ∧ p.phase = PodPhase.running ∧
            (∀ st ∈ p.containerStatuses, st.ready = true) then
          match g p.nodeName with
          | .ok b => b
          | .error _ => status.nodeBootID
        else status.nodeBootID) ∧
    (∀ p e, pod = some p → p.deletionTimestamp = none →
      p.phase = PodPhase.running →
      (∀ st ∈ p.containerStatuses, st.ready = true) →
      g p.nodeName = Except.error e →
      (syncStatusWithPod g pod spec status).currentState =
        InstanceState.running ∧
      (syncStatusWithPod g pod spec status).nodeBootID =
        status.nodeBootID) := by
  constructor
  · cases pod with
    | none =>
      rw [sync_none]
      split <;> rfl
    | some p =>
      by_cases hdt : p.deletionTimestamp.isSome
      · rw [sync_deleting g p spec status hdt]
        rw [Option.isSome_iff_ne_none] at hdt
        simp [hdt]
      · have hdt' : p.deletionTimestamp = none :=
          Option.not_isSome_iff_eq_none.mp hdt
        cases hph : p.phase
        · rw [sync_pending g p spec status hdt' hph]
          simp [hph]
        · by_cases hrdy : (p.containerStatuses.any fun st => !st.ready) = true
          · have hnall : ¬ ∀ st ∈ p.containerStatuses, st.ready = true := by
              simp only [List.any_eq_true] at hrdy
              obtain ⟨st, hst, hnr⟩ := hrdy
              intro hall
              have := hall st hst
              simp [this] at hnr
            rw [sync_running_notready g p spec status hdt' hph hrdy]
            simp [hnall]
          · have hrdy' : (p.containerStatuses.any fun st => !st.ready)
                = false := Bool.not_eq_true _ ▸ hrdy
            have hall : ∀ st ∈ p.containerStatuses, st.ready = true := by
              simp only [List.any_eq_false] at hrdy'
              intro st hst
              have := hrdy' st hst
              simpa using this
            rw [sync_running_ready g p spec status hdt' hph hrdy']
            dsimp only
            rw [if_pos ⟨hdt', hph, hall⟩]
        · rw [sync_other_phase g p spec status hdt' (by simp [hph])
            (by simp [hph])]
          simp [hph]
        · rw [sync_other_phase g p spec status hdt' (by simp [hph])
            (by simp [hph])]
          simp [hph]
        · rw [sync_other_phase g p spec status hdt' (by simp [hph])
            (by simp [hph])]
          simp [hph]
  · intro p e hpod hdt hph hall hfail
    subst hpod
    have hrdy : (p.containerStatuses.any fun st => !st.ready) = false := by
      simp only [List.any_eq_false]
      intro st hst
      simp [hall st hst]
    rw [sync_running_ready g p spec status hdt hph hrdy]
    simp [hfail]

/-- C9 witness: failed boot-ID lookup on a Running, all-ready pod keeps the
old NodeBootID and still projects Running. -/
theorem C9_witness :
    (syncStatusWithPod gErr (some podRun)
        specRun statusLatched).currentState = InstanceState.running ∧
    (syncStatusWithPod gErr (some podRun)
        specRun statusLatched).nodeBootID = statusLatched.nodeBootID :=
  (C9_nodeBootID_frame gErr (some podRun)
      specRun statusLatched).2 podRun "node-gone" rfl rfl rfl (by decide) rfl

/-- C10: with DesireState = Running and a live fetched pod, Started is set
to true regardless of phase; for a failed or unknown phase the projection
then yields CurrentState = Error while Started stays true. -/
theorem C10_started_despite_bad_phase (env : KubeEnv) (spec : InstanceSpec)
    (status : InstanceStatus) (p : Pod)
    (hds : spec.desireState = InstanceState.running)
    (hg : env.getPodResult = PodGetResult.found p)
    (hdt : p.deletionTimestamp = none)
    (hph : p.phase = PodPhase.failed ∨ p.phase = PodPhase.unknown) :
    (ReconcileInstanceState env spec status).status.started = true ∧
    (ReconcileInstanceState env spec status).status.currentState =
      InstanceState.error := by
  have h1 := reconcile_of_proceed env spec status (some p)
    { status with started := true } false false
    (switch_running_live env spec status p hds hg hdt)
  have hsync : syncStatusWithPod env.getBootID (some p) spec
      { status with started := true } =
      { status with
        started := true
        currentState := InstanceState.error
        ip := ""
        currentImage := "" } := by
    rw [sync_other_phase env.getBootID p spec _ hdt
      (by cases hph <;> simp_all) (by cases hph <;> simp_all)]
  rw [h1]
  simp only [reconcileTail, hsync]
  simp

/-- C10 witness: live pod in Failed phase under desire Running. -/
theorem C10_witness :
    (ReconcileInstanceState envFoundFailed specRun
        statusZero).status.started = true ∧
    (ReconcileInstanceState envFoundFailed specRun
        statusZero).status.currentState = InstanceState.error :=
  C10_started_despite_bad_phase envFoundFailed specRun statusZero podFailed
    rfl rfl rfl (Or.inl rfl)
